import Mathlib

/-!
Shallow embedding of the monitor-alert service monitor (`src/monitor_alert.go`).

Time is modelled as a logical clock (`Nat`): each call that reads `time.Now()`
receives the current instant as an explicit argument.  Durations are `Nat`.
The HTTP side effects of a probe attempt are modelled as an environment
`env : Nat → AttemptResult` giving the result of the i-th issued request.
-/

namespace MonitorAlert

/-- Go struct `ServiceStatus`: the per-service health record owned by the
Status Tracker (the `name`/`lastCheck` fields are kept for faithfulness). -/
structure ServiceStatus where
  name : String
  status : Bool
  lastCheck : Nat
  lastError : String
  failureCount : Nat
  responseTime : Nat
  alertSent : Bool
  recoveryTime : Option Nat
  deriving Repr, DecidableEq

/-- Events dispatched by the tracker: `outageStarted` models a `sendAlerts`
call (carrying the error message), `recovered` models a `sendRecoveryAlert`
call (carrying the downtime duration it computes). -/
inductive Event where
  | outageStarted (errMsg : String)
  | recovered (duration : Nat)
  deriving Repr, DecidableEq

/-- Go `sendRecoveryAlert` (the duration computation): reads the record's
`RecoveryTime` and computes `time.Since(*status.RecoveryTime)`; the record
always has `RecoveryTime` set at this call site, so `getD 0` never fires. -/
def sendRecoveryAlert (s : ServiceStatus) (now : Nat) : Event :=
  Event.recovered (now - s.recoveryTime.getD 0)

/-- Go `updateServiceStatus`: the Status Tracker transition function.
Returns the updated record together with the list of dispatched events. -/
def updateServiceStatus (s : ServiceStatus) (status : Bool) (errMsg : String)
    (responseTime : Nat) (now : Nat) : ServiceStatus × List Event :=
  let prevStatus := s.status
  let s2 : ServiceStatus := { s with status := status, lastCheck := now, responseTime := responseTime }
  if !status then
    let s3 : ServiceStatus := { s2 with lastError := errMsg, failureCount := s2.failureCount + 1 }
    if prevStatus && !s3.alertSent then
      ({ s3 with alertSent := true }, [Event.outageStarted errMsg])
    else
      (s3, [])
  else if !prevStatus && status then
    let s4 : ServiceStatus := { s2 with recoveryTime := some now, failureCount := 0, alertSent := false }
    (s4, [sendRecoveryAlert s4 now])
  else
    (s2, [])

/-- Go struct `ProbeOutcome` data fed into `updateServiceStatus` by
`checkService`: success flag, error message, elapsed latency. -/
structure ProbeOutcome where
  success : Bool
  errMsg : String
  responseTime : Nat
  deriving Repr, DecidableEq

/-- The record `NewMonitor` creates for each configured service:
`Status: true`, `LastCheck: time.Now()`, all other fields Go zero values. -/
def initStatus (name : String) (now : Nat) : ServiceStatus :=
  { name := name
    status := true
    lastCheck := now
    lastError := ""
    failureCount := 0
    responseTime := 0
    alertSent := false
    recoveryTime := none }

/-- Applying a sequence of probe outcomes (each with the instant at which the
tracker processes it) to a record, collecting all dispatched events in order. -/
def runTrace (s : ServiceStatus) : List (ProbeOutcome × Nat) → ServiceStatus × List Event
  | [] => (s, [])
  | (o, t) :: rest =>
    let step := updateServiceStatus s o.success o.errMsg o.responseTime t
    let r := runTrace step.1 rest
    (r.1, step.2 ++ r.2)

/-- Success flags of a trace, in order. -/
def flagsOf (tr : List (ProbeOutcome × Nat)) : List Bool :=
  tr.map (fun p => p.1.success)

/-! ### Probe Executor (`checkService`) -/

/-- Result of one issued HTTP request: `client.Do` returns either a transport
error or a response with a status code. -/
inductive AttemptResult where
  | transportErr (msg : String)
  | response (code : Nat)
  deriving Repr, DecidableEq

/-- The error the Go loop records for a failed attempt: the transport error
itself, or `fmt.Errorf("unexpected status code: %d", resp.StatusCode)`. -/
def attemptErr (a : AttemptResult) : String :=
  match a with
  | .transportErr msg => msg
  | .response code => "unexpected status code: " ++ toString code

/-- Whether an attempt counts as failed for the loop (transport error, or a
status code different from the expected one). -/
def attemptFails (expected : Nat) (a : AttemptResult) : Bool :=
  match a with
  | .transportErr _ => true
  | .response code => !(code == expected)

/-- Observable summary of one `checkService` run: `report` holds the
`(status, errMsg)` pair passed on to `updateServiceStatus` — `none` models the
nil-pointer dereference of `lastErr.Error()` when the loop exhausts with
`lastErr` still nil; `requests` counts issued HTTP requests; `sleeps` counts
`time.Sleep(retry_delay)` calls. -/
structure ProbeRun where
  report : Option (Bool × String)
  requests : Nat
  sleeps : Nat
  deriving Repr, DecidableEq

/-- The Go retry loop `for attempt := 0; attempt < service.RetryAttempts;
attempt++`, with `i` the index of the next request, `remaining` the attempts
left, and `lastErr` the accumulated last error (Go: a nil-initialised `error`). -/
def checkLoop (expected : Nat) (env : Nat → AttemptResult) (i : Nat)
    (lastErr : Option String) : Nat → ProbeRun
  | 0 =>
    match lastErr with
    | none => { report := none, requests := 0, sleeps := 0 }
    | some e => { report := some (false, e), requests := 0, sleeps := 0 }
  | remaining + 1 =>
    match env i with
    | .transportErr msg =>
      let r := checkLoop expected env (i + 1) (some msg) remaining
      { r with requests := r.requests + 1, sleeps := r.sleeps + 1 }
    | .response code =>
      if code == expected then
        { report := some (true, ""), requests := 1, sleeps := 0 }
      else
        let r := checkLoop expected env (i + 1)
          (some ("unexpected status code: " ++ toString code)) remaining
        { r with requests := r.requests + 1, sleeps := r.sleeps + 1 }

/-- Go `checkService`, up to the call into `updateServiceStatus`:
`buildErr = some msg` models `http.NewRequest` failing with error `msg`
(in which case a failure is reported immediately with zero requests);
otherwise the retry loop runs. -/
def checkService (buildErr : Option String) (expected retryAttempts : Nat)
    (env : Nat → AttemptResult) : ProbeRun :=
  match buildErr with
  | some msg => { report := some (false, msg), requests := 0, sleeps := 0 }
  | none => checkLoop expected env 0 none retryAttempts

/-- `checkService` composed with the Status Tracker update it performs:
`none` when the probe panics before reporting. -/
def checkAndUpdate (s : ServiceStatus) (buildErr : Option String)
    (expected retryAttempts : Nat) (env : Nat → AttemptResult)
    (responseTime now : Nat) : Option (ServiceStatus × List Event) :=
  match (checkService buildErr expected retryAttempts env).report with
  | none => none
  | some (st, msg) => some (updateServiceStatus s st msg responseTime now)

/-! ### Alert Dispatcher (`sendAlerts`) -/

/-- Go struct `SlackConfig`. -/
structure SlackConfig where
  webhookURL : String
  channels : List String
  deriving Repr, DecidableEq

/-- Go struct `EmailConfig` (present in the config, unused by `sendAlerts`). -/
structure EmailConfig where
  smtpServer : String
  smtpPort : Nat
  username : String
  password : String
  recipients : List String
  deriving Repr, DecidableEq

/-- Go struct `PagerDutyConfig`. -/
structure PagerDutyConfig where
  serviceKey : String
  apiKey : String
  deriving Repr, DecidableEq

/-- Go struct `AlertConfig`. -/
structure AlertConfig where
  slack : SlackConfig
  email : EmailConfig
  pagerduty : PagerDutyConfig
  deriving Repr, DecidableEq

/-- Go struct `ServiceConfig`. -/
structure ServiceConfig where
  name : String
  url : String
  method : String
  headers : List (String × String)
  expectedStatus : Nat
  timeout : Nat
  checkInterval : Nat
  retryAttempts : Nat
  retryDelay : Nat
  criticalService : Bool
  deriving Repr, DecidableEq

/-- Go struct `MonitorConfig`. -/
structure MonitorConfig where
  services : List ServiceConfig
  alerts : AlertConfig
  deriving Repr, DecidableEq

/-- The Go zero value of `ServiceConfig` (what `var serviceConfig
ServiceConfig` holds when the name-lookup loop finds no match). -/
def zeroServiceConfig : ServiceConfig :=
  { name := ""
    url := ""
    method := ""
    headers := []
    expectedStatus := 0
    timeout := 0
    checkInterval := 0
    retryAttempts := 0
    retryDelay := 0
    criticalService := false }

/-- The lookup loop at the top of `sendAlerts`: first config whose name
matches, or the zero value. -/
def findServiceConfig (services : List ServiceConfig) (service : String) : ServiceConfig :=
  match services.find? (fun s => s.name == service) with
  | some s => s
  | none => zeroServiceConfig

/-- Go `sendAlerts` (the `OutageStarted` dispatch): returns which backends are
invoked, as `(slackCalled, pagerDutyCalled)`. -/
def sendAlerts (cfg : MonitorConfig) (service : String) : Bool × Bool :=
  let serviceConfig := findServiceConfig cfg.services service
  (cfg.alerts.slack.webhookURL != "",
    serviceConfig.criticalService && (cfg.alerts.pagerduty.serviceKey != ""))

/-- A concrete critical service configuration, used to exercise the theorems
on explicit inputs. -/
def sampleCritical : ServiceConfig :=
  { name := "svc"
    url := "https://svc.example/health"
    method := "GET"
    headers := []
    expectedStatus := 200
    timeout := 5
    checkInterval := 30
    retryAttempts := 3
    retryDelay := 1
    criticalService := true }

/-- A concrete monitor configuration with both backends configured. -/
def sampleConfig : MonitorConfig :=
  { services := [sampleCritical]
    alerts :=
      { slack := { webhookURL := "https://hooks.example/x", channels := [] }
        email := { smtpServer := "", smtpPort := 0, username := "", password := "", recipients := [] }
        pagerduty := { serviceKey := "pdkey", apiKey := "api" } } }

/-! ### Spec-side observers over outcome sequences and event traces -/

/-- Number of `outageStarted` events in a dispatched event trace. -/
def countOutageEvents : List Event → Nat
  | [] => 0
  | .outageStarted _ :: rest => countOutageEvents rest + 1
  | .recovered _ :: rest => countOutageEvents rest

/-- Number of `recovered` events in a dispatched event trace. -/
def countRecoveredEvents : List Event → Nat
  | [] => 0
  | .outageStarted _ :: rest => countRecoveredEvents rest
  | .recovered _ :: rest => countRecoveredEvents rest + 1

/-- Number of maximal contiguous runs of failures in a success-flag sequence,
given the health `prev` preceding it: a run starts exactly at a failure whose
predecessor (or the initial health) is a success. -/
def failureRunCount (prev : Bool) : List Bool → Nat
  | [] => 0
  | b :: rest => (if prev && !b then 1 else 0) + failureRunCount b rest

/-- Number of Down→Up transitions in a success-flag sequence, given the health
`prev` preceding it: a success whose predecessor (or initial health) is a
failure. -/
def downUpCount (prev : Bool) : List Bool → Nat
  | [] => 0
  | b :: rest => (if !prev && b then 1 else 0) + downUpCount b rest

/-- Strict alternation of an event trace: when `expectOutage` is true the next
event (if any) must be an `outageStarted`, otherwise a `recovered`, and the
expectation flips after each event. -/
def alternatesFrom (expectOutage : Bool) : List Event → Bool
  | [] => true
  | .outageStarted _ :: rest => expectOutage && alternatesFrom false rest
  | .recovered _ :: rest => !expectOutage && alternatesFrom true rest

/-- Number of `outageStarted` events after the last `recovered` event (the
accumulator `n` counts outage-starts seen since the most recent recovery). -/
def outageStartsSinceRecovery (n : Nat) : List Event → Nat
  | [] => n
  | .outageStarted _ :: rest => outageStartsSinceRecovery (n + 1) rest
  | .recovered _ :: rest => outageStartsSinceRecovery 0 rest

/-- Error message of the most recent failure in an outcome sequence (`acc`
if there is none). -/
def lastFailureErr (acc : String) : List ProbeOutcome → String
  | [] => acc
  | o :: rest => lastFailureErr (if o.success then acc else o.errMsg) rest

/-- All `recovered` events in a trace carry duration 0. -/
def recoveredAllZero : List Event → Bool
  | [] => true
  | .outageStarted _ :: rest => recoveredAllZero rest
  | .recovered d :: rest => (d == 0) && recoveredAllZero rest

/-- Dispatched events predicted from the success flags alone: an
`outageStarted` at each failure following a success (or the initial Up), a
`recovered` at each success following a failure, nothing otherwise. -/
def specEvents (prev : Bool) : List (ProbeOutcome × Nat) → List Event
  | [] => []
  | (o, _) :: rest =>
    if prev && !o.success then Event.outageStarted o.errMsg :: specEvents o.success rest
    else if !prev && o.success then Event.recovered 0 :: specEvents o.success rest
    else specEvents o.success rest

@[simp]
theorem flagsOf_nil : flagsOf [] = [] := rfl

@[simp]
theorem flagsOf_cons (o : ProbeOutcome) (t : Nat) (rest : List (ProbeOutcome × Nat)) :
    flagsOf ((o, t) :: rest) = o.success :: flagsOf rest := rfl

/-! ### Branch lemmas for the transition function -/

theorem update_fail_up (s : ServiceStatus) (e : String) (rt t : Nat)
    (hs : s.status = true) (ha : s.alertSent = false) :
    updateServiceStatus s false e rt t =
      ({ s with
          status := false
          lastCheck := t
          responseTime := rt
          lastError := e
          failureCount := s.failureCount + 1
          alertSent := true },
        [Event.outageStarted e]) := by
  simp [updateServiceStatus, hs, ha]

theorem update_fail_down (s : ServiceStatus) (e : String) (rt t : Nat)
    (hs : s.status = false) :
    updateServiceStatus s false e rt t =
      ({ s with
          status := false
          lastCheck := t
          responseTime := rt
          lastError := e
          failureCount := s.failureCount + 1 },
        []) := by
  simp [updateServiceStatus, hs]

theorem update_ok_down (s : ServiceStatus) (e : String) (rt t : Nat)
    (hs : s.status = false) :
    updateServiceStatus s true e rt t =
      ({ s with
          status := true
          lastCheck := t
          responseTime := rt
          recoveryTime := some t
          failureCount := 0
          alertSent := false },
        [Event.recovered 0]) := by
  simp [updateServiceStatus, sendRecoveryAlert, hs]

theorem update_ok_up (s : ServiceStatus) (e : String) (rt t : Nat)
    (hs : s.status = true) :
    updateServiceStatus s true e rt t =
      ({ s with
          status := true
          lastCheck := t
          responseTime := rt }, []) := by
  simp [updateServiceStatus, hs]

/-- On any reachable record (one satisfying `alertSent → Down`), the events a
trace dispatches are exactly those predicted from the success flags, and the
invariant still holds at the end. -/
theorem runTrace_events_eq (tr : List (ProbeOutcome × Nat)) :
    ∀ s : ServiceStatus, (s.alertSent = true → s.status = false) →
      (runTrace s tr).2 = specEvents s.status tr ∧
      ((runTrace s tr).1.alertSent = true → (runTrace s tr).1.status = false) := by
  induction tr with
  | nil => intro s hinv; exact ⟨rfl, hinv⟩
  | cons p rest ih =>
    obtain ⟨o, t⟩ := p
    intro s hinv
    cases hb : o.success with
    | false =>
      cases hs : s.status with
      | false =>
        have hstep := update_fail_down s o.errMsg o.responseTime t hs
        have ihr := ih { s with
            status := false
            lastCheck := t
            responseTime := o.responseTime
            lastError := o.errMsg
            failureCount := s.failureCount + 1 } (fun _ => rfl)
        constructor
        · simp only [runTrace, hb, hstep, specEvents, hs]
          simp [ihr.1]
        · simp only [runTrace, hb, hstep]
          exact ihr.2
      | true =>
        have ha : s.alertSent = false := by
          cases hA : s.alertSent with
          | false => rfl
          | true => have hc := hinv hA; rw [hs] at hc; exact Bool.noConfusion hc
        have hstep := update_fail_up s o.errMsg o.responseTime t hs ha
        have ihr := ih { s with
            status := false
            lastCheck := t
            responseTime := o.responseTime
            lastError := o.errMsg
            failureCount := s.failureCount + 1
            alertSent := true } (fun _ => rfl)
        constructor
        · simp only [runTrace, hb, hstep, specEvents, hs]
          simp [ihr.1]
        · simp only [runTrace, hb, hstep]
          exact ihr.2
    | true =>
      cases hs : s.status with
      | false =>
        have hstep := update_ok_down s o.errMsg o.responseTime t hs
        have ihr := ih { s with
            status := true
            lastCheck := t
            responseTime := o.responseTime
            recoveryTime := some t
            failureCount := 0
            alertSent := false } (fun h => Bool.noConfusion h)
        constructor
        · simp only [runTrace, hb, hstep, specEvents, hs]
          simp [ihr.1]
        · simp only [runTrace, hb, hstep]
          exact ihr.2
      | true =>
        have hstep := update_ok_up s o.errMsg o.responseTime t hs
        have ihr := ih { s with
            status := true
            lastCheck := t
            responseTime := o.responseTime }
          (fun h => by have hc := hinv h; rw [hs] at hc; exact Bool.noConfusion hc)
        constructor
        · simp only [runTrace, hb, hstep, specEvents, hs]
          simp [ihr.1]
        · simp only [runTrace, hb, hstep]
          exact ihr.2



/-! ### Observers of the predicted events -/

theorem specEvents_countOutage (tr : List (ProbeOutcome × Nat)) :
    ∀ prev : Bool, countOutageEvents (specEvents prev tr) = failureRunCount prev (flagsOf tr) := by
  induction tr with
  | nil => intro prev; rfl
  | cons p rest ih =>
    obtain ⟨o, t⟩ := p
    intro prev
    cases hb : o.success <;> cases prev <;>
      simp [specEvents, countOutageEvents, failureRunCount, flagsOf, hb, ih, Nat.add_comm]

theorem specEvents_countRecovered (tr : List (ProbeOutcome × Nat)) :
    ∀ prev : Bool, countRecoveredEvents (specEvents prev tr) = downUpCount prev (flagsOf tr) := by
  induction tr with
  | nil => intro prev; rfl
  | cons p rest ih =>
    obtain ⟨o, t⟩ := p
    intro prev
    cases hb : o.success <;> cases prev <;>
      simp [specEvents, countRecoveredEvents, downUpCount, flagsOf, hb, ih, Nat.add_comm]

theorem specEvents_alternates (tr : List (ProbeOutcome × Nat)) :
    ∀ prev : Bool, alternatesFrom prev (specEvents prev tr) = true := by
  induction tr with
  | nil => intro prev; rfl
  | cons p rest ih =>
    obtain ⟨o, t⟩ := p
    intro prev
    cases hb : o.success <;> cases prev <;>
      simp [specEvents, alternatesFrom, hb, ih]

theorem specEvents_recoveredZero (tr : List (ProbeOutcome × Nat)) :
    ∀ prev : Bool, recoveredAllZero (specEvents prev tr) = true := by
  induction tr with
  | nil => intro prev; rfl
  | cons p rest ih =>
    obtain ⟨o, t⟩ := p
    intro prev
    cases hb : o.success <;> cases prev <;>
      simp [specEvents, recoveredAllZero, hb, ih]

/-- A strictly alternating event trace has at most `n + 1` outage-starts since
the last recovery when an outage-start is expected next, and at most
`max n 1` otherwise. -/
theorem alternates_outage_bound (es : List Event) :
    ∀ (b : Bool) (n : Nat), alternatesFrom b es = true →
      outageStartsSinceRecovery n es ≤ if b then n + 1 else max n 1 := by
  induction es with
  | nil =>
    intro b n _
    cases b <;> simp [outageStartsSinceRecovery]
  | cons e rest ih =>
    intro b n halt
    cases e with
    | outageStarted msg =>
      cases b with
      | false => simp [alternatesFrom] at halt
      | true =>
        simp only [alternatesFrom, Bool.true_and] at halt
        have := ih false (n + 1) halt
        simp only [outageStartsSinceRecovery]
        simp at this ⊢
        omega
    | recovered d =>
      cases b with
      | true => simp [alternatesFrom] at halt
      | false =>
        simp only [alternatesFrom, Bool.not_false, Bool.true_and] at halt
        have := ih true 0 halt
        simp only [outageStartsSinceRecovery]
        simp at this ⊢
        omega

/-! ### Field lemmas and state invariants along a trace -/

theorem update_status_eq (s : ServiceStatus) (b : Bool) (e : String) (rt t : Nat) :
    (updateServiceStatus s b e rt t).1.status = b := by
  cases b <;> simp [updateServiceStatus] <;> split <;> simp_all

theorem update_lastError_eq (s : ServiceStatus) (b : Bool) (e : String) (rt t : Nat) :
    (updateServiceStatus s b e rt t).1.lastError = if b then s.lastError else e := by
  cases b <;> simp [updateServiceStatus] <;> split <;> simp_all

theorem update_failureCount_eq (s : ServiceStatus) (b : Bool) (e : String) (rt t : Nat) :
    (updateServiceStatus s b e rt t).1.failureCount =
      if b then (if s.status then s.failureCount else 0) else s.failureCount + 1 := by
  cases b <;> simp [updateServiceStatus] <;> split <;> simp_all

theorem runTrace_lastError (tr : List (ProbeOutcome × Nat)) :
    ∀ s : ServiceStatus,
      (runTrace s tr).1.lastError = lastFailureErr s.lastError (tr.map Prod.fst) := by
  induction tr with
  | nil => intro s; rfl
  | cons p rest ih =>
    obtain ⟨o, t⟩ := p
    intro s
    simp only [runTrace, List.map_cons, lastFailureErr]
    rw [ih]
    congr 1
    · exact update_lastError_eq s o.success o.errMsg o.responseTime t

theorem runTrace_zeroCountWhenUp (tr : List (ProbeOutcome × Nat)) :
    ∀ s : ServiceStatus, (s.status = true → s.failureCount = 0) →
      ((runTrace s tr).1.status = true → (runTrace s tr).1.failureCount = 0) := by
  induction tr with
  | nil => intro s h; exact h
  | cons p rest ih =>
    obtain ⟨o, t⟩ := p
    intro s h
    simp only [runTrace]
    refine ih _ ?_
    intro hup
    rw [update_status_eq] at hup
    rw [update_failureCount_eq, hup]
    by_cases hs : s.status = true
    · simp [hs, h hs]
    · simp [Bool.eq_false_iff.mpr hs]

theorem runTrace_posCountWhenDown (tr : List (ProbeOutcome × Nat)) :
    ∀ s : ServiceStatus, (s.status = false → 0 < s.failureCount) →
      ((runTrace s tr).1.status = false → 0 < (runTrace s tr).1.failureCount) := by
  induction tr with
  | nil => intro s h; exact h
  | cons p rest ih =>
    obtain ⟨o, t⟩ := p
    intro s h
    simp only [runTrace]
    refine ih _ ?_
    intro hdown
    rw [update_status_eq] at hdown
    rw [update_failureCount_eq, hdown]
    simp

theorem runTrace_append (tr tr' : List (ProbeOutcome × Nat)) :
    ∀ s : ServiceStatus,
      runTrace s (tr ++ tr') =
        ((runTrace (runTrace s tr).1 tr').1,
          (runTrace s tr).2 ++ (runTrace (runTrace s tr).1 tr').2) := by
  induction tr with
  | nil => intro s; simp [runTrace]
  | cons p rest ih =>
    obtain ⟨o, t⟩ := p
    intro s
    simp only [List.cons_append, runTrace, List.append_eq, ih, List.append_assoc]


/-! ### The retry loop when every attempt fails -/

theorem checkLoop_allFail (expected : Nat) (env : Nat → AttemptResult) :
    ∀ (n i : Nat) (lastErr : Option String),
      (∀ j, j ≤ n → attemptFails expected (env (i + j)) = true) →
      checkLoop expected env i lastErr (n + 1) =
        { report := some (false, attemptErr (env (i + n)))
          requests := n + 1
          sleeps := n + 1 } := by
  intro n
  induction n with
  | zero =>
    intro i lastErr h
    have h0 := h 0 (Nat.le_refl 0)
    rw [Nat.add_zero] at h0
    cases he : env i with
    | transportErr msg =>
      simp [checkLoop, he, attemptErr]
    | response code =>
      rw [he] at h0
      have hc : (code == expected) = false := by
        cases hcc : code == expected
        · rfl
        · rw [attemptFails, hcc] at h0; exact Bool.noConfusion h0
      simp [checkLoop, he, hc, attemptErr]
  | succ m ihm =>
    intro i lastErr h
    have h0 := h 0 (Nat.zero_le _)
    rw [Nat.add_zero] at h0
    have hrec : ∀ j, j ≤ m → attemptFails expected (env (i + 1 + j)) = true := by
      intro j hj
      have hh := h (j + 1) (by omega)
      have heq : i + (j + 1) = i + 1 + j := by omega
      rwa [heq] at hh
    cases he : env i with
    | transportErr msg =>
      unfold checkLoop
      simp only [he]
      rw [ihm (i + 1) (some msg) hrec]
      have heq : i + 1 + m = i + (m + 1) := by omega
      simp [heq]
    | response code =>
      rw [he] at h0
      have hc : (code == expected) = false := by
        cases hcc : code == expected
        · rfl
        · rw [attemptFails, hcc] at h0; exact Bool.noConfusion h0
      unfold checkLoop
      simp only [he, hc, Bool.false_eq_true, if_false]
      rw [ihm (i + 1) (some ("unexpected status code: " ++ toString code)) hrec]
      have heq : i + 1 + m = i + (m + 1) := by omega
      simp [heq]


/-! ### Claims about the Probe Executor and the Alert Dispatcher -/

/-- Claim C3: for `retryAttempts = N ≥ 1`, if every attempt fails then the
probe executor issues exactly N requests and returns a failure outcome whose
error message is the error of the last (N-th) attempt. -/
theorem claim_C3_all_attempts_fail (expected retryAttempts : Nat)
    (env : Nat → AttemptResult) (hN : 1 ≤ retryAttempts)
    (hfail : ∀ j, j < retryAttempts → attemptFails expected (env j) = true) :
    (checkService none expected retryAttempts env).requests = retryAttempts ∧
    (checkService none expected retryAttempts env).report =
      some (false, attemptErr (env (retryAttempts - 1))) := by
  obtain ⟨m, rfl⟩ : ∃ m, retryAttempts = m + 1 := ⟨retryAttempts - 1, by omega⟩
  have h := checkLoop_allFail expected env m 0 none
    (fun j hj => by simpa using hfail j (by omega))
  constructor
  · show (checkLoop expected env 0 none (m + 1)).requests = m + 1
    rw [h]
  · show (checkLoop expected env 0 none (m + 1)).report =
      some (false, attemptErr (env (m + 1 - 1)))
    rw [h]
    simp

/-- Witness for C3 at a concrete input: three attempts, all transport errors. -/
theorem claim_C3_all_attempts_fail_witness :
    (checkService none 200 3 (fun i => AttemptResult.transportErr (toString i))).requests = 3 ∧
    (checkService none 200 3 (fun i => AttemptResult.transportErr (toString i))).report =
      some (false, attemptErr ((fun i => AttemptResult.transportErr (toString i)) (3 - 1))) :=
  claim_C3_all_attempts_fail 200 3 (fun i => AttemptResult.transportErr (toString i))
    (by decide) (fun _ _ => rfl)

/-- Claim C4 counterexample: with a single attempt that fails,
`time.Sleep(retry_delay)` runs once, although the claim says no wait occurs
after the final failed attempt (so the count should have been 0). -/
theorem claim_C4_counterexample :
    (checkService none 200 1 (fun _ => AttemptResult.transportErr "connection refused")).sleeps
        = 1 ∧
    (1 : Nat) ≠ 0 :=
  ⟨rfl, by decide⟩

/-- Claim C4 (amended): the executor waits `retry_delay` after every failed
attempt, including the final one — with all N attempts failing it sleeps
exactly N times, not N − 1. -/
theorem claim_C4_sleep_after_every_failure (expected retryAttempts : Nat)
    (env : Nat → AttemptResult) (hN : 1 ≤ retryAttempts)
    (hfail : ∀ j, j < retryAttempts → attemptFails expected (env j) = true) :
    (checkService none expected retryAttempts env).sleeps = retryAttempts := by
  obtain ⟨m, rfl⟩ : ∃ m, retryAttempts = m + 1 := ⟨retryAttempts - 1, by omega⟩
  have h := checkLoop_allFail expected env m 0 none
    (fun j hj => by simpa using hfail j (by omega))
  show (checkLoop expected env 0 none (m + 1)).sleeps = m + 1
  rw [h]

/-- Witness for the amended C4: two attempts with wrong status codes give two
sleeps. -/
theorem claim_C4_sleep_after_every_failure_witness :
    (checkService none 200 2 (fun _ => AttemptResult.response 500)).sleeps = 2 :=
  claim_C4_sleep_after_every_failure 200 2 (fun _ => AttemptResult.response 500)
    (by decide) (fun _ _ => rfl)

/-- Claim C5 counterexample: with `retry_attempts = 0` no request is issued,
but the run does not complete safely — the final `lastErr.Error()` dereferences
the still-nil `lastErr` (`report = none` models that nil dereference), refuting
the claim's safe-completion part. -/
theorem claim_C5_counterexample :
    (checkService none 200 0 (fun _ => AttemptResult.response 200)).requests = 0 ∧
    (checkService none 200 0 (fun _ => AttemptResult.response 200)).report = none :=
  ⟨rfl, rfl⟩

/-- Claim C5 (amended): with `retry_attempts = 0` the loop body never runs, so
no health check is attempted, and the executor then dereferences the
uninitialized (nil) `lastErr` instead of completing safely; zero retries must
be rejected by configuration validation. -/
theorem claim_C5_zero_retries (expected : Nat) (env : Nat → AttemptResult) :
    checkService none expected 0 env =
      { report := none, requests := 0, sleeps := 0 } :=
  rfl

/-- Claim C10: when building the HTTP request fails, the probe records a
failure through the same Status Tracker transition function, carrying the
construction error, with zero requests issued regardless of the retry count. -/
theorem claim_C10_build_error (s : ServiceStatus) (msg : String)
    (expected retryAttempts : Nat) (env : Nat → AttemptResult) (rt now : Nat) :
    checkService (some msg) expected retryAttempts env =
      { report := some (false, msg), requests := 0, sleeps := 0 } ∧
    checkAndUpdate s (some msg) expected retryAttempts env rt now =
      some (updateServiceStatus s false msg rt now) :=
  ⟨rfl, rfl⟩

/-- Claim C7: on an `OutageStarted` dispatch, the chat webhook is called
whenever configured, and the paging backend is called if and only if the
service is critical and the paging backend is configured; a non-critical
service never pages. -/
theorem claim_C7_dispatch_policy (cfg : MonitorConfig) (service : String)
    (sc : ServiceConfig)
    (hfind : cfg.services.find? (fun s => s.name == service) = some sc) :
    (sendAlerts cfg service).1 = (cfg.alerts.slack.webhookURL != "") ∧
    ((sendAlerts cfg service).2 = true ↔
      sc.criticalService = true ∧ cfg.alerts.pagerduty.serviceKey ≠ "") ∧
    (sc.criticalService = false → (sendAlerts cfg service).2 = false) := by
  have hsc : findServiceConfig cfg.services service = sc := by
    rw [findServiceConfig, hfind]
  refine ⟨rfl, ?_, ?_⟩
  · simp [sendAlerts, hsc, Bool.and_eq_true, bne_iff_ne]
  · intro hcrit
    simp [sendAlerts, hsc, hcrit]

/-- Witness for C7: the sample critical service with both backends configured
pages and posts to the webhook. -/
theorem claim_C7_dispatch_policy_witness :
    (sendAlerts sampleConfig "svc").1 = (sampleConfig.alerts.slack.webhookURL != "") ∧
    ((sendAlerts sampleConfig "svc").2 = true ↔
      sampleCritical.criticalService = true ∧
        sampleConfig.alerts.pagerduty.serviceKey ≠ "") ∧
    (sampleCritical.criticalService = false → (sendAlerts sampleConfig "svc").2 = false) :=
  claim_C7_dispatch_policy sampleConfig "svc" sampleCritical (by decide)


/-! ### Claims about the Status Tracker -/

/-- Claim C1: starting from the initial Up record, a trace dispatches exactly
one `OutageStarted` per maximal contiguous run of failures, exactly one
`Recovered` per Down→Up transition, and the two strictly alternate (never two
outage-starts without an intervening recovery). -/
theorem claim_C1_event_discipline (name : String) (t0 : Nat)
    (tr : List (ProbeOutcome × Nat)) :
    countOutageEvents (runTrace (initStatus name t0) tr).2
        = failureRunCount true (flagsOf tr) ∧
    countRecoveredEvents (runTrace (initStatus name t0) tr).2
        = downUpCount true (flagsOf tr) ∧
    alternatesFrom true (runTrace (initStatus name t0) tr).2 = true := by
  have h := runTrace_events_eq tr (initStatus name t0) (fun hx => Bool.noConfusion hx)
  rw [h.1]
  exact ⟨specEvents_countOutage tr true, specEvents_countRecovered tr true,
    specEvents_alternates tr true⟩

/-- Claim C2 (the code's actual behaviour at the failing input): every
`Recovered` event the tracker dispatches carries duration 0, because
`sendRecoveryAlert` measures from `RecoveryTime`, which was set to the current
instant in the same transition; in particular an outage lasting from instant 5
to instant 12 is reported with downtime 0, not 7. -/
theorem claim_C2_recovery_duration_zero (name : String) (t0 : Nat)
    (tr : List (ProbeOutcome × Nat)) :
    recoveredAllZero (runTrace (initStatus name t0) tr).2 = true ∧
    (runTrace (initStatus "svc" 0)
        [(⟨false, "connection refused", 1⟩, 5), (⟨true, "", 1⟩, 12)]).2
      = [Event.outageStarted "connection refused", Event.recovered 0] ∧
    (12 : Nat) - 5 ≠ 0 := by
  have h := runTrace_events_eq tr (initStatus name t0) (fun hx => Bool.noConfusion hx)
  refine ⟨?_, rfl, by decide⟩
  rw [h.1]
  exact specEvents_recoveredZero tr true

/-- Claim C6 counterexample: after a failure followed by a recovery the record
is healthy again but `LastError` still holds the outage's error message — the
recovery transition never clears it. -/
theorem claim_C6_counterexample :
    (runTrace (initStatus "svc" 0)
        [(⟨false, "connection refused", 1⟩, 1), (⟨true, "", 1⟩, 2)]).1.status = true ∧
    (runTrace (initStatus "svc" 0)
        [(⟨false, "connection refused", 1⟩, 1), (⟨true, "", 1⟩, 2)]).1.lastError ≠ "" :=
  ⟨rfl, by decide⟩

/-- Claim C6 (amended): `LastError` always equals the error message of the most
recent failure outcome (empty only while no failure has occurred); failure
transitions overwrite it and no transition — including Down→Up recovery —
clears it, so a healthy record can carry the last outage's error. -/
theorem claim_C6_last_error (name : String) (t0 : Nat)
    (tr : List (ProbeOutcome × Nat)) :
    (runTrace (initStatus name t0) tr).1.lastError
      = lastFailureErr "" (tr.map Prod.fst) :=
  runTrace_lastError tr (initStatus name t0)

/-- Claim C8: starting from the initial record (Up, `alertSent` false), after
any trace the `alertSent` flag is true only while health is Down, and at most
one outage-start alert has been dispatched since the last recovery. -/
theorem claim_C8_alert_flag_invariant (name : String) (t0 : Nat)
    (tr : List (ProbeOutcome × Nat)) :
    (initStatus name t0).status = true ∧
    (initStatus name t0).alertSent = false ∧
    ((runTrace (initStatus name t0) tr).1.alertSent = true →
      (runTrace (initStatus name t0) tr).1.status = false) ∧
    outageStartsSinceRecovery 0 (runTrace (initStatus name t0) tr).2 ≤ 1 := by
  have h := runTrace_events_eq tr (initStatus name t0) (fun hx => Bool.noConfusion hx)
  refine ⟨rfl, rfl, h.2, ?_⟩
  have halt : alternatesFrom true (runTrace (initStatus name t0) tr).2 = true := by
    rw [h.1]
    exact specEvents_alternates tr true
  have hb := alternates_outage_bound (runTrace (initStatus name t0) tr).2 true 0 halt
  simpa using hb

/-- Witness for C8 at a concrete trace with one failure. -/
theorem claim_C8_alert_flag_invariant_witness :
    (initStatus "svc" 0).status = true ∧
    (initStatus "svc" 0).alertSent = false ∧
    ((runTrace (initStatus "svc" 0) [(⟨false, "connection refused", 1⟩, 1)]).1.alertSent = true →
      (runTrace (initStatus "svc" 0) [(⟨false, "connection refused", 1⟩, 1)]).1.status = false) ∧
    outageStartsSinceRecovery 0
        (runTrace (initStatus "svc" 0) [(⟨false, "connection refused", 1⟩, 1)]).2 ≤ 1 :=
  claim_C8_alert_flag_invariant "svc" 0 [(⟨false, "connection refused", 1⟩, 1)]

/-- Claim C9: the consecutive-failure count is 0 whenever health is Up and
strictly positive while Down; appending one more failure increments it by one
(so a Down run starts at 1 and the count is non-decreasing within the run),
and appending a success resets it to 0. -/
theorem claim_C9_failure_count (name : String) (t0 : Nat)
    (tr : List (ProbeOutcome × Nat)) (o : ProbeOutcome) (t : Nat) :
    ((runTrace (initStatus name t0) tr).1.status = true →
      (runTrace (initStatus name t0) tr).1.failureCount = 0) ∧
    ((runTrace (initStatus name t0) tr).1.status = false →
      0 < (runTrace (initStatus name t0) tr).1.failureCount) ∧
    (o.success = false →
      (runTrace (initStatus name t0) (tr ++ [(o, t)])).1.failureCount =
        (runTrace (initStatus name t0) tr).1.failureCount + 1) ∧
    (o.success = true →
      (runTrace (initStatus name t0) (tr ++ [(o, t)])).1.failureCount = 0) := by
  have hz := runTrace_zeroCountWhenUp tr (initStatus name t0) (fun _ => rfl)
  have hp := runTrace_posCountWhenDown tr (initStatus name t0) (fun hx => Bool.noConfusion hx)
  refine ⟨hz, hp, ?_, ?_⟩
  · intro hf
    rw [runTrace_append tr [(o, t)] (initStatus name t0)]
    simp only [runTrace]
    rw [update_failureCount_eq, hf]
    simp
  · intro ht
    rw [runTrace_append tr [(o, t)] (initStatus name t0)]
    simp only [runTrace]
    rw [update_failureCount_eq, ht]
    by_cases hs : (runTrace (initStatus name t0) tr).1.status = true
    · simp [hs, hz hs]
    · simp [Bool.eq_false_iff.mpr hs]

/-- Witness for C9: empty history followed by one failure. -/
theorem claim_C9_failure_count_witness :
    ((runTrace (initStatus "svc" 0) []).1.status = true →
      (runTrace (initStatus "svc" 0) []).1.failureCount = 0) ∧
    ((runTrace (initStatus "svc" 0) []).1.status = false →
      0 < (runTrace (initStatus "svc" 0) []).1.failureCount) ∧
    ((⟨false, "connection refused", 1⟩ : ProbeOutcome).success = false →
      (runTrace (initStatus "svc" 0) ([] ++ [(⟨false, "connection refused", 1⟩, 1)])).1.failureCount =
        (runTrace (initStatus "svc" 0) []).1.failureCount + 1) ∧
    ((⟨false, "connection refused", 1⟩ : ProbeOutcome).success = true →
      (runTrace (initStatus "svc" 0) ([] ++ [(⟨false, "connection refused", 1⟩, 1)])).1.failureCount = 0) :=
  claim_C9_failure_count "svc" 0 [] ⟨false, "connection refused", 1⟩ 1

end MonitorAlert
